import Mathlib

/-!
Shallow embedding of `src/core/src/core.js` of the pyscript core:
the lifecycle hook orchestration and dual-context execution engine.

Pure data is translated to Lean structures; DOM / io / network effects are
modelled as an explicit event trace (`Ev`); external collaborators that the
core only calls (fetch, dedent, unescape, target lookup, the interpreter's
`run`/`runAsync` settlement) are oracle fields of an `Env` record, so every
definition stays executable.
-/

namespace PyScriptCore

/-- A DOM element as `core.js` reads it: tag name, a node key identifying it
inside the document, the `sync` marker attribute (`isSync`), the `src` and
`target` attributes, its inline content in both forms, and the two
`outerHTML` renderings used by `element.cloneNode(clone).outerHTML`
(deep clone when `clone` is true, shallow otherwise). -/
structure Element where
  tagName : String
  key : Nat
  syncAttr : Bool
  srcAttr : Option String
  targetAttr : Option String
  textContent : String
  innerHTML : String
  outerHTMLShallow : String
  outerHTMLDeep : String
deriving DecidableEq, Repr

/-- Observable events emitted by the embedded code, in program order. -/
inductive Ev
  /-- a network fetch of a `src` url was attempted (`robustFetch`) -/
  | fetch (url : String)
  /-- Event for `io.stderr(msg)`. -/
  | stderr (msg : String)
  /-- Event for `console.warn(msg)`. -/
  | warn (msg : String)
  /-- Event for `dispatch(element, TYPE, kind)`: a custom event of kind `kind`. -/
  | dispatchEvent (kind : String)
  /-- Event recording that `wrap.run(code)` / `wrap.runAsync(code)` was invoked. -/
  | run (isAsync : Bool) (code : String)
  /-- Event for `interpreter.registerJsModule("_pyscript", fields)`. -/
  | registerJsModule (fields : List String)
  /-- a plugin hook callback was called (start of the call) -/
  | cbBegin (c : Nat)
  /-- an internal action of plugin callback `c` -/
  | cbAct (c : Nat) (e : Nat)
  /-- plugin callback `c` settled (sync return / awaited promise resolution) -/
  | cbEnd (c : Nat)
  /-- Event for `element._wrap.resolve(wrap)` on the custom-element path of onReady. -/
  | resolveWrap
  /-- Event for `defineProperty(element, "target", show)`: display element resolved. -/
  | targetResolved (key : Nat)
  /-- Event for `assign(xworker.sync, sync)` inside the main onWorker hook. -/
  | syncAssigned
deriving DecidableEq, Repr

/-- Oracles for the external collaborators `core.js` calls. -/
structure Env where
  /-- result of `fetch(url).then(getText)`: text, or a thrown error -/
  fetchResult : String → Except String String
  /-- Oracle for `dedent` from polyscript/exports. -/
  dedent : String → String
  /-- Oracle for `unescape` from polyscript/exports. -/
  unescape : String → String
  /-- Oracle for `queryTarget(element, target)`: document lookup of the target id. -/
  queryTarget : String → Nat
  /-- whether `run`/`runAsync` on this code settles successfully
  (false models a thrown exception / rejected promise) -/
  runOk : Bool → String → Bool
  /-- plugin callbacks registered for the main `onReady` checkpoint -/
  onReadyCallbacks : List Nat
  /-- plugin callbacks registered for the main `onWorker` checkpoint -/
  onWorkerCallbacks : List Nat
  /-- internal actions each plugin callback performs when invoked -/
  cbBody : Nat → List Nat

/-- Predicate `isScript`: tagName === "SCRIPT" (core.js line 51). -/
def isScript (el : Element) : Bool := el.tagName = "SCRIPT"

/-! ## Source Resolver (`fetchSource`, core.js lines 131-148) -/

/-- The inline fall-through of `fetchSource`: `dedent(tag.textContent)` when
`asText`, else the deprecated `dedent(unescape(tag.innerHTML))` path with its
`console.warn`. -/
def inlineSource (env : Env) (TYPE : String) (tag : Element) (asText : Bool) :
    String × List Ev :=
  if asText then (env.dedent tag.textContent, [])
  else
    let code := env.dedent (env.unescape tag.innerHTML)
    (code,
      [Ev.warn ("Deprecated: use <script type=\"" ++ TYPE ++
        "\"> for an always safe content parsing:\n" ++ code)])

/-- Function `fetchSource(tag, io, asText)`: if a `src` attribute is present, fetch it
once; on success return the fetched text, on failure report the error via
`io.stderr` and fall through to the inline content. -/
def fetchSource (env : Env) (TYPE : String) (tag : Element) (asText : Bool) :
    String × List Ev :=
  match tag.srcAttr with
  | some url =>
    match env.fetchResult url with
    | Except.ok text => (text, [Ev.fetch url])
    | Except.error e =>
      ((inlineSource env TYPE tag asText).1,
        Ev.fetch url :: Ev.stderr e :: (inlineSource env TYPE tag asText).2)
  | none => inlineSource env TYPE tag asText

/-! ## Hook Registry & invocation loops -/

/-- Modelled from the spec: the hook registry of `hooks.js` is not under
`src/`; per the spec, `register(context, eventName, callback)` appends to the
ordered list for that (context, eventName) pair. -/
def registerHook (reg : List Nat) (c : Nat) : List Nat := reg ++ [c]

/-- Registering the callbacks `cs` one after the other on an empty registry. -/
def registerAll (cs : List Nat) : List Nat := cs.foldl registerHook []

/-- One `await callback(wrap, element)`: the call starts, the callback's own
actions happen, and the call settles before control returns to the loop. -/
def awaitCallback (body : Nat → List Nat) (c : Nat) : List Ev :=
  Ev.cbBegin c :: (body c).map (Ev.cbAct c) ++ [Ev.cbEnd c]

/-- Loop `for (const callback of main("onReady")) await callback(wrap, element);`
(core.js lines 202-203): each callback is awaited to completion before the
next one is called.  The synchronous `onWorker` loop (lines 252-253) produces
the same trace shape because a synchronous call also runs to completion
before the loop advances. -/
def invokeHookChain (body : Nat → List Nat) : List Nat → List Ev
  | [] => []
  | c :: rest => awaitCallback body c ++ invokeHookChain body rest

/-- The main `onWorker` hook (core.js lines 250-254): assign the sync object
onto `xworker.sync`, then call every registered `onWorker` callback in
order. -/
def onWorker (env : Env) : List Ev :=
  Ev.syncAssigned :: invokeHookChain env.cbBody env.onWorkerCallbacks

/-- Callback invocation order: the callbacks in the order their calls start. -/
def invocationOrder (tr : List Ev) : List Nat :=
  tr.filterMap fun e =>
    match e with
    | Ev.cbBegin c => some c
    | _ => none

/-- The begin/settle markers of a trace, everything else erased. -/
def chainMarkers (tr : List Ev) : List Ev :=
  tr.filter fun e =>
    match e with
    | Ev.cbBegin _ => true
    | Ev.cbEnd _ => true
    | _ => false

/-! ## Error Ledger (`const errors = new Map()`, core.js line 191, and the
`onerror(error, element)` handler of lines 321-323) -/

/-- Lookup `errors.get(element)` on the per-flavor error ledger (keyed by node key). -/
def ledgerGet (errors : List (Nat × String)) (k : Nat) : Option String :=
  (errors.find? fun p => p.1 = k).map Prod.snd

/-- Deletion `errors.delete(element)`. -/
def ledgerDelete (errors : List (Nat × String)) (k : Nat) : List (Nat × String) :=
  errors.filter fun p => p.1 ≠ k

/-- Handler `onerror(error, element)`, which runs `errors.set(element, error)`. -/
def onerror (errors : List (Nat × String)) (k : Nat) (e : String) :
    List (Nat × String) :=
  (k, e) :: ledgerDelete errors k

/-- Modelled from the spec: `ErrorCode.CONFLICTING_CODE` lives in
`exceptions.js`, which is not under `src/`; the spec only requires a
distinguishing conflicting-code error code, modelled as its symbolic name. -/
def CONFLICTING_CODE : String := "CONFLICTING_CODE"

/-- Modelled from the spec: the `INVALID_CONTENT` sentinel comes from
`polyscript/exports` (not under `src/`); it only matters as the message value
that selects a deep clone in the conflicting-code report. -/
def INVALID_CONTENT : String := "Invalid content"

/-- The message built in the error branch of `onReady` (core.js lines
208-212): `(${ErrorCode.CONFLICTING_CODE}) ${message} for ` followed by
`element.cloneNode(clone).outerHTML`, with a deep clone exactly when the
message is the `INVALID_CONTENT` sentinel. -/
def conflictingMessage (message : String) (el : Element) : String :=
  let clone := message = INVALID_CONTENT
  "(" ++ CONFLICTING_CODE ++ ") " ++ message ++ " for " ++
    (if clone then el.outerHTMLDeep else el.outerHTMLShallow)

/-! ## Document model (for target resolution and placement, core.js 217-233) -/

/-- The parts of the document the controller touches: the node keys living in
`document.head`, the node keys of `document.body` children in order, and the
`id` attributes (an element with no entry, or an `""` entry, has a falsy
`id`). -/
structure Document where
  headKeys : List Nat
  bodyKeys : List Nat
  ids : List (Nat × String)
deriving DecidableEq, Repr

/-- Placement `element.after(show)`: insert `fresh` immediately after `anchor` among the
body children (no-op when the anchor is not there). -/
def insertAfter (l : List Nat) (anchor fresh : Nat) : List Nat :=
  match l with
  | [] => []
  | x :: xs => if x = anchor then x :: fresh :: xs else x :: insertAfter xs anchor fresh

/-- Reading `show.id` as the controller reads it. -/
def docId (doc : Document) (k : Nat) : Option String :=
  (doc.ids.find? fun p => p.1 = k).map Prod.snd

/-- Assignment `show.id = value`. -/
def setId (doc : Document) (k : Nat) (v : String) : Document :=
  { doc with ids := (k, v) :: doc.ids.filter fun p => p.1 ≠ k }

/-! ## Per-flavor controller state -/

/-- The mutable state one flavor's lifecycle controller closes over:
the error ledger (`errors`), the `alreadyRegistered` guard of
`registerModule`, the `id` counter behind `getID`, a fresh-node-key counter
for `document.createElement`, and the document. -/
structure MainState where
  errors : List (Nat × String)
  alreadyRegistered : Bool
  idCounter : Nat
  nextKey : Nat
  doc : Document
deriving DecidableEq, Repr

/-- Counter `getID(prefix = TYPE)` (core.js lines 123-124): a unique
`prefix-counter` identifier. -/
def getID (TYPE : String) (st : MainState) : String × MainState :=
  (TYPE ++ "-" ++ toString st.idCounter, { st with idCounter := st.idCounter + 1 })

/-- Guarded assignment `if (!show.id) show.id = getID();` (core.js line 229). -/
def assignIdIfMissing (TYPE : String) (st : MainState) (k : Nat) : MainState :=
  match docId st.doc k with
  | some i =>
    if i = "" then
      let st' := (getID TYPE st).2
      { st' with doc := setId st'.doc k (getID TYPE st).1 }
    else st
  | none =>
    let st' := (getID TYPE st).2
    { st' with doc := setId st'.doc k (getID TYPE st).1 }

/-- The fields of the `_pyscript` JS module registered on the interpreter
(core.js lines 170-180). -/
def pyscriptModuleFields : List String :=
  ["PyWorker", "fs", "interpreter", "js_import", "target"]

/-- Function `registerModule(wrap)` (core.js lines 156-181): register the `_pyscript`
module once per flavor, guarded by the `alreadyRegistered` flag. -/
def registerModule (st : MainState) : MainState × List Ev :=
  if st.alreadyRegistered then (st, [])
  else
    ({ st with alreadyRegistered := true },
      [Ev.registerJsModule pyscriptModuleFields])

/-- Display-element resolution of the script path of `onReady` (core.js lines
219-229): look up an explicit `target`, or create a fresh `script-py`
element, append it to the body when the unit lives in the head and insert it
right after the unit otherwise, then give the display element an id if it has
none.  Returns the display element's node key and the updated state. -/
def resolveShow (env : Env) (TYPE : String) (st : MainState) (el : Element) :
    Nat × MainState :=
  match el.targetAttr with
  | some t =>
    let showEl := env.queryTarget t
    (showEl, assignIdIfMissing TYPE st showEl)
  | none =>
    let showEl := st.nextKey
    let st1 := { st with nextKey := st.nextKey + 1 }
    let doc := st1.doc
    let doc1 :=
      if el.key ∈ doc.headKeys then { doc with bodyKeys := doc.bodyKeys ++ [showEl] }
      else { doc with bodyKeys := insertAfter doc.bodyKeys el.key showEl }
    (showEl, assignIdIfMissing TYPE { st1 with doc := doc1 } showEl)

/-- Helper `dispatchDone(element, isAsync, result)` (core.js lines 115-118): the
`done` custom event is dispatched on the result's settlement — only when the
synchronous call returned (did not throw), respectively only when the promise
fulfilled. -/
def dispatchDoneEvents (ok : Bool) : List Ev :=
  if ok then [Ev.dispatchEvent "done"] else []

/-- The main `onReady` hook (core.js lines 197-249): register the interpreter
module, run the plugin `onReady` chain, consume a pending ledger error (which
preempts execution), otherwise resolve the display target, dispatch `ready`,
resolve the source, run it and dispatch `done` on success — or, for a
non-script custom element, resolve its `_wrap` promise. -/
def onReady (env : Env) (TYPE : String) (st0 : MainState) (el : Element) :
    MainState × List Ev :=
  let st1 := (registerModule st0).1
  let trReg := (registerModule st0).2
  let trPlugins := invokeHookChain env.cbBody env.onReadyCallbacks
  match ledgerGet st1.errors el.key with
  | some message =>
    ({ st1 with errors := ledgerDelete st1.errors el.key },
      trReg ++ trPlugins ++ [Ev.stderr (conflictingMessage message el)])
  | none =>
    if isScript el then
      let isAsync := !el.syncAttr
      let code := (fetchSource env TYPE el true).1
      ((resolveShow env TYPE st1 el).2,
        trReg ++ trPlugins ++
          [Ev.targetResolved (resolveShow env TYPE st1 el).1,
            Ev.dispatchEvent "ready"] ++
          (fetchSource env TYPE el true).2 ++ [Ev.run isAsync code] ++
          dispatchDoneEvents (env.runOk isAsync code))
    else
      (st1, trReg ++ trPlugins ++ [Ev.resolveWrap])

/-! ## The custom element (`customElements.define`, core.js lines 326-364) -/

/-- The `TYPE-script` custom element instance: the underlying element data,
plus the fields the constructor assigns (`srcCode`, `executed`) and the child
count that decides the `asText` flag of its source resolution. -/
structure CElement where
  base : Element
  srcCode : String
  executed : Bool
  childElementCount : Nat
deriving DecidableEq, Repr

/-- Method `connectedCallback()` (core.js lines 342-362): a no-op when `executed` is
already set; otherwise set it, await the `_wrap` promise (`wrapResolved`
false models a wrap that never resolves, suspending forever), resolve the
source, empty the children, dispatch `ready`, run the code and dispatch
`done` on successful settlement. -/
def connectedCallback (env : Env) (TYPE : String) (ce : CElement)
    (wrapResolved : Bool) : CElement × List Ev :=
  if ce.executed then (ce, [])
  else
    let ce1 := { ce with executed := true }
    if wrapResolved then
      let isAsync := !ce.base.syncAttr
      let code := (fetchSource env TYPE ce.base (ce.childElementCount = 0)).1
      ({ ce1 with srcCode := code, childElementCount := 0 },
        (fetchSource env TYPE ce.base (ce.childElementCount = 0)).2 ++
          [Ev.dispatchEvent "ready", Ev.run isAsync code] ++
          dispatchDoneEvents (env.runOk isAsync code))
    else (ce1, [])

/-! ## Module Singleton Guard (`stickyModule`, core.js lines 79-113) -/

/-- The exported surface stored in the process-wide sticky slot.  Each field
is an identity token: two loads exporting the same token export the very same
object. -/
structure Exports where
  pyWorkerTok : Nat
  mpWorkerTok : Nat
  hooksTok : Nat
  configTok : Nat
  whenDefinedTok : Nat
deriving DecidableEq, Repr

/-- Modelled from the spec: the `sticky-module` helper is not under `src/`;
per the spec, it checks a well-known process-wide slot, adopts the existing
record when present (reporting `alreadyLive = true`) and stores the fresh one
otherwise. -/
def stickyModule (slot : Option Exports) (fresh : Exports) :
    (Exports × Bool) × Option Exports :=
  match slot with
  | some live => ((live, true), some live)
  | none => ((fresh, false), some fresh)

/-- The per-flavor initialization work of the `for (const [TYPE, ...] of
TYPES)` loop body (core.js lines 111-370). -/
inductive InitAction
  /-- the flavor's hook table was built and `hooked.set(TYPE, hooks)` ran -/
  | hookTableConstructed (t : String)
  /-- Action: `customElements.define(TYPE + "-script", ...)` ran. -/
  | customElementDefined (t : String)
  /-- Action: `exportedConfig[TYPE] = structuredClone(config)` ran. -/
  | configExported (t : String)
deriving DecidableEq, Repr

/-- One iteration of the loop body, past the `alreadyLive` break: when the
flavor's config resolution errored, the whole `define` block is skipped
(fail-closed) and only the config snapshot is exported. -/
def initFlavor (t : String) (configError : Bool) : List InitAction :=
  (if configError then []
   else [InitAction.hookTableConstructed t, InitAction.customElementDefined t]) ++
    [InitAction.configExported t]

/-- Loop `for (const [TYPE, interpreter] of TYPES)` with its `alreadyLive` break
(core.js lines 111-370): the whole initialization dance is skipped when the
module already landed. -/
def initLoop (alreadyLive : Bool) : List (String × Bool) → List InitAction
  | [] => []
  | f :: rest =>
    if alreadyLive then []
    else initFlavor f.1 f.2 ++ initLoop alreadyLive rest

/-- What one evaluation of the module produces: the adopted exports, the
`alreadyLive` flag, the updated process-wide slot, and the initialization
actions performed. -/
structure LoadResult where
  exports : Exports
  alreadyLive : Bool
  slot : Option Exports
  actions : List InitAction
deriving DecidableEq, Repr

/-- One evaluation of `core.js` against the current process-wide slot:
`stickyModule("@pyscript/core", {...})` destructures either the fresh or the
already-live exports, and the flavor loop then initializes each flavor unless
the module was already live. -/
def loadModule (slot : Option Exports) (fresh : Exports)
    (flavors : List (String × Bool)) : LoadResult :=
  let ex := (stickyModule slot fresh).1.1
  let live := (stickyModule slot fresh).1.2
  { exports := ex, alreadyLive := live, slot := (stickyModule slot fresh).2,
    actions := initLoop live flavors }

/-! ## Worker Bootstrap Facade (`PyScriptWorker`, core.js lines 55-76) -/

/-- The options bag of `PyWorker`/`MPWorker`: an optional config, an optional
async flag, and the `type` field the facade always overwrites. -/
structure WorkerOptions where
  config : Option String
  isAsyncOpt : Option Bool
  typ : Option String
deriving DecidableEq, Repr

/-- Merge `{ ...options, type: interpreter }`: the caller's options spread first,
then the flavor's interpreter identifier as `type`. -/
def mergeOptions (o : WorkerOptions) (interpreter : String) : WorkerOptions :=
  { o with typ := some interpreter }

/-- The observable steps of one `PyScriptWorker(file, options)` call. -/
inductive SpawnEv
  /-- Step: `await configs.get(TYPE).plugins` settled. -/
  | awaitPlugins (t : String)
  /-- Step: `XWorker.call(new Hook(null, hooked.get(TYPE)), file, opts)`:
  the worker was constructed with the flavor's hook table -/
  | constructWorker (file : String) (opts : WorkerOptions) (hookTableOf : String)
  /-- Step: `assign(xworker.sync, sync)` on the fresh worker. -/
  | assignSync (workerKey : Nat)
deriving DecidableEq, Repr

/-- The worker facade `XWorker` returns: its key and its `ready` promise,
identified by the worker whose readiness report settles it. -/
structure Spawned where
  workerKey : Nat
  readyOf : Nat
deriving DecidableEq, Repr

/-- Promise `xworker.ready` settles once worker `readyOf` has reported readiness. -/
def readySettles (s : Spawned) (signals : List Nat) : Prop :=
  s.readyOf ∈ signals

instance (s : Spawned) (signals : List Nat) : Decidable (readySettles s signals) := by
  unfold readySettles
  infer_instance

/-- Facade `async function PyScriptWorker(file, options)` (core.js lines 63-75):
await the flavor's plugin-bootstrap promise, construct the worker with the
flavor's hook table and the merged options, assign the sync object, and
return the worker's `ready` promise. -/
def PyScriptWorker (TYPE interpreter : String) (file : String)
    (options : WorkerOptions) (freshKey : Nat) : Spawned × List SpawnEv :=
  ({ workerKey := freshKey, readyOf := freshKey },
    [SpawnEv.awaitPlugins TYPE,
      SpawnEv.constructWorker file (mergeOptions options interpreter) TYPE,
      SpawnEv.assignSync freshKey])

/-! ## Trace projections -/

/-- The `io.stderr` messages of a trace, in order. -/
def stderrMsgs (tr : List Ev) : List String :=
  tr.filterMap fun e =>
    match e with
    | Ev.stderr m => some m
    | _ => none

/-- The `_pyscript` module registrations of a trace, in order. -/
def regEvents (tr : List Ev) : List (List String) :=
  tr.filterMap fun e =>
    match e with
    | Ev.registerJsModule fields => some fields
    | _ => none

/-- Is this event an invocation of `run`/`runAsync`? -/
def isRunEv : Ev → Bool
  | Ev.run _ _ => true
  | _ => false

/-- Is this event a network fetch? -/
def isFetchEv : Ev → Bool
  | Ev.fetch _ => true
  | _ => false

/-- How many events of a trace satisfy `p`. -/
def countP (p : Ev → Bool) (tr : List Ev) : Nat := tr.countP p

/-- Index of the first occurrence of `e` in `tr` (length of `tr` if absent). -/
def idxOf (tr : List Ev) (e : Ev) : Nat :=
  match tr with
  | [] => 0
  | x :: xs => if x = e then 0 else idxOf xs e + 1

/-! ## Helper lemmas -/

lemma registerHook_foldl (acc cs : List Nat) :
    List.foldl registerHook acc cs = acc ++ cs := by
  induction cs generalizing acc with
  | nil => simp
  | cons c cs ih => simp [registerHook, ih]

lemma registerAll_eq (cs : List Nat) : registerAll cs = cs := by
  simpa [registerAll] using registerHook_foldl [] cs

lemma invocationOrder_append (a b : List Ev) :
    invocationOrder (a ++ b) = invocationOrder a ++ invocationOrder b := by
  simp [invocationOrder]

lemma chainMarkers_append (a b : List Ev) :
    chainMarkers (a ++ b) = chainMarkers a ++ chainMarkers b := by
  simp [chainMarkers]

lemma invocationOrder_acts (c : Nat) (l : List Nat) :
    invocationOrder (l.map (Ev.cbAct c)) = [] := by
  induction l with
  | nil => rfl
  | cons a l ih => simp [invocationOrder]

lemma chainMarkers_acts (c : Nat) (l : List Nat) :
    chainMarkers (l.map (Ev.cbAct c)) = [] := by
  induction l with
  | nil => rfl
  | cons a l ih => simp [chainMarkers]

lemma invocationOrder_awaitCallback (body : Nat → List Nat) (c : Nat) :
    invocationOrder (awaitCallback body c) = [c] := by
  have h := invocationOrder_acts c (body c)
  simp [invocationOrder] at h
  simp [awaitCallback, invocationOrder, h]

lemma chainMarkers_awaitCallback (body : Nat → List Nat) (c : Nat) :
    chainMarkers (awaitCallback body c) = [Ev.cbBegin c, Ev.cbEnd c] := by
  have h := chainMarkers_acts c (body c)
  simp [chainMarkers] at h
  simp [awaitCallback, chainMarkers, h]

lemma invocationOrder_chain (body : Nat → List Nat) (cs : List Nat) :
    invocationOrder (invokeHookChain body cs) = cs := by
  induction cs with
  | nil => rfl
  | cons c cs ih =>
    simp [invokeHookChain, invocationOrder_append, invocationOrder_awaitCallback, ih]

lemma chainMarkers_chain (body : Nat → List Nat) (cs : List Nat) :
    chainMarkers (invokeHookChain body cs) =
      cs.flatMap fun c => [Ev.cbBegin c, Ev.cbEnd c] := by
  induction cs with
  | nil => rfl
  | cons c cs ih =>
    simp [invokeHookChain, chainMarkers_append, chainMarkers_awaitCallback, ih]

/-! ## C1 -/

/-- C1: for every checkpoint, invoking it calls the registered plugin
callbacks exactly in registration order (first registered, first invoked),
and each awaited callback settles before the next call starts: the
begin/settle markers of the chain trace are exactly
`begin c₁, end c₁, begin c₂, end c₂, …` in registration order.  The same
holds inside a full `onReady` trace for the `onReady` registrations, and on
the synchronous `onWorker` checkpoint. -/
theorem hook_callbacks_run_in_registration_order (body : Nat → List Nat)
    (cs : List Nat) (env : Env) :
    invocationOrder (invokeHookChain body (registerAll cs)) = cs ∧
    chainMarkers (invokeHookChain body (registerAll cs)) =
      (cs.flatMap fun c => [Ev.cbBegin c, Ev.cbEnd c]) ∧
    invocationOrder (onWorker env) = env.onWorkerCallbacks := by
  refine ⟨?_, ?_, ?_⟩
  · rw [registerAll_eq, invocationOrder_chain]
  · rw [registerAll_eq, chainMarkers_chain]
  · simpa [onWorker, invocationOrder] using
      invocationOrder_chain env.cbBody env.onWorkerCallbacks

lemma registerModule_fst (st : MainState) :
    (registerModule st).1 = { st with alreadyRegistered := true } := by
  unfold registerModule
  split
  · rename_i h
    cases st
    simp_all
  · rfl

lemma registerModule_snd (st : MainState) :
    (registerModule st).2 =
      if st.alreadyRegistered then []
      else [Ev.registerJsModule pyscriptModuleFields] := by
  unfold registerModule
  split <;> simp_all

lemma ledgerGet_delete (errors : List (Nat × String)) (k : Nat) :
    ledgerGet (ledgerDelete errors k) k = none := by
  induction errors with
  | nil => rfl
  | cons p rest ih =>
    by_cases h : p.1 = k <;> simp [ledgerDelete, ledgerGet, h] at ih ⊢

lemma regEvents_append (a b : List Ev) :
    regEvents (a ++ b) = regEvents a ++ regEvents b := by
  simp [regEvents]

lemma stderrMsgs_append (a b : List Ev) :
    stderrMsgs (a ++ b) = stderrMsgs a ++ stderrMsgs b := by
  simp [stderrMsgs]

lemma regEvents_acts (c : Nat) (l : List Nat) :
    regEvents (l.map (Ev.cbAct c)) = [] := by
  induction l with
  | nil => rfl
  | cons a l ih => simp [regEvents]

lemma regEvents_awaitCallback (body : Nat → List Nat) (c : Nat) :
    regEvents (awaitCallback body c) = [] := by
  have h := regEvents_acts c (body c)
  simp [regEvents] at h
  simp [awaitCallback, regEvents, h]

lemma regEvents_chain (body : Nat → List Nat) (cs : List Nat) :
    regEvents (invokeHookChain body cs) = [] := by
  induction cs with
  | nil => rfl
  | cons c cs ih =>
    rw [invokeHookChain, regEvents_append, regEvents_awaitCallback, ih]
    rfl

lemma stderrMsgs_acts (c : Nat) (l : List Nat) :
    stderrMsgs (l.map (Ev.cbAct c)) = [] := by
  induction l with
  | nil => rfl
  | cons a l ih => simp [stderrMsgs]

lemma stderrMsgs_awaitCallback (body : Nat → List Nat) (c : Nat) :
    stderrMsgs (awaitCallback body c) = [] := by
  have h := stderrMsgs_acts c (body c)
  simp [stderrMsgs] at h
  simp [awaitCallback, stderrMsgs, h]

lemma stderrMsgs_chain (body : Nat → List Nat) (cs : List Nat) :
    stderrMsgs (invokeHookChain body cs) = [] := by
  induction cs with
  | nil => rfl
  | cons c cs ih =>
    rw [invokeHookChain, stderrMsgs_append, stderrMsgs_awaitCallback, ih]
    rfl

lemma countP_append (p : Ev → Bool) (a b : List Ev) :
    countP p (a ++ b) = countP p a + countP p b := by
  simp [countP]

lemma mem_chain_cases (body : Nat → List Nat) (cs : List Nat) (e : Ev)
    (h : e ∈ invokeHookChain body cs) :
    (∃ c, e = Ev.cbBegin c) ∨ (∃ c a, e = Ev.cbAct c a) ∨ (∃ c, e = Ev.cbEnd c) := by
  induction cs with
  | nil => simp [invokeHookChain] at h
  | cons c cs ih =>
    rw [invokeHookChain] at h
    rcases List.mem_append.1 h with h | h
    · rw [awaitCallback] at h
      rcases List.mem_cons.1 h with h | h
      · exact Or.inl ⟨c, h⟩
      · rcases List.mem_append.1 h with h | h
        · rcases List.mem_map.1 h with ⟨a, -, h⟩
          exact Or.inr (Or.inl ⟨c, a, h.symm⟩)
        · have h := List.mem_singleton.1 h
          exact Or.inr (Or.inr ⟨c, h⟩)
    · exact ih h

lemma run_count_chain (body : Nat → List Nat) (cs : List Nat) :
    countP isRunEv (invokeHookChain body cs) = 0 := by
  rw [countP, List.countP_eq_zero]
  intro e he
  rcases mem_chain_cases body cs e he with ⟨c, rfl⟩ | ⟨c, a, rfl⟩ | ⟨c, rfl⟩ <;>
    simp [isRunEv]

lemma fetch_count_chain (body : Nat → List Nat) (cs : List Nat) :
    countP isFetchEv (invokeHookChain body cs) = 0 := by
  rw [countP, List.countP_eq_zero]
  intro e he
  rcases mem_chain_cases body cs e he with ⟨c, rfl⟩ | ⟨c, a, rfl⟩ | ⟨c, rfl⟩ <;>
    simp [isFetchEv]

lemma dispatch_not_mem_chain (s : String) (body : Nat → List Nat) (cs : List Nat) :
    Ev.dispatchEvent s ∉ invokeHookChain body cs := by
  intro h
  rcases mem_chain_cases body cs _ h with ⟨c, h'⟩ | ⟨c, a, h'⟩ | ⟨c, h'⟩ <;> cases h'

lemma run_count_inline (env : Env) (TYPE : String) (el : Element) (b : Bool) :
    countP isRunEv (inlineSource env TYPE el b).2 = 0 := by
  unfold inlineSource
  split <;> rfl

lemma run_count_fetchSource (env : Env) (TYPE : String) (el : Element) (b : Bool) :
    countP isRunEv (fetchSource env TYPE el b).2 = 0 := by
  have hin : List.countP isRunEv (inlineSource env TYPE el b).2 = 0 :=
    run_count_inline env TYPE el b
  unfold fetchSource
  cases hsrc : el.srcAttr with
  | none => exact hin
  | some url =>
    cases hf : env.fetchResult url with
    | ok t => simp [hf, countP, isRunEv]
    | error e => simp [hf, countP, List.countP_cons, isRunEv, hin]

lemma fetch_count_inline (env : Env) (TYPE : String) (el : Element) (b : Bool) :
    countP isFetchEv (inlineSource env TYPE el b).2 = 0 := by
  unfold inlineSource
  split <;> rfl

lemma fetch_count_fetchSource (env : Env) (TYPE : String) (el : Element) (b : Bool) :
    countP isFetchEv (fetchSource env TYPE el b).2 ≤ 1 := by
  have hin : List.countP isFetchEv (inlineSource env TYPE el b).2 = 0 :=
    fetch_count_inline env TYPE el b
  unfold fetchSource
  cases hsrc : el.srcAttr with
  | none => simp [countP, hin]
  | some url =>
    cases hf : env.fetchResult url with
    | ok t => simp [hf, countP, List.countP_cons, isFetchEv]
    | error e => simp [hf, countP, List.countP_cons, isFetchEv, hin]

lemma run_count_done (ok : Bool) : countP isRunEv (dispatchDoneEvents ok) = 0 := by
  unfold dispatchDoneEvents
  split <;> rfl

lemma fetch_count_done (ok : Bool) : countP isFetchEv (dispatchDoneEvents ok) = 0 := by
  unfold dispatchDoneEvents
  split <;> rfl

/-! ## C4 -/

/-- C4: a custom-element execution unit executes at most once no matter how
often `connectedCallback` fires: after any invocation the `executed` flag is
set, a further invocation on the resulting element is a pure no-op (same
element, empty trace — its source is not re-resolved and nothing is passed to
`run`/`runAsync` again), and a single invocation invokes `run`/`runAsync` at
most once and fetches at most once. -/
theorem connected_callback_executes_at_most_once (env env' : Env)
    (TYPE TYPE' : String) (ce : CElement) (r r' : Bool) :
    ((connectedCallback env TYPE ce r).1.executed = true) ∧
    (connectedCallback env' TYPE' (connectedCallback env TYPE ce r).1 r' =
      ((connectedCallback env TYPE ce r).1, ([] : List Ev))) ∧
    countP isRunEv (connectedCallback env TYPE ce r).2 ≤ 1 ∧
    countP isFetchEv (connectedCallback env TYPE ce r).2 ≤ 1 := by
  have hrun : List.countP isRunEv
      (fetchSource env TYPE ce.base (decide (ce.childElementCount = 0))).2 = 0 :=
    run_count_fetchSource env TYPE ce.base _
  have hfetch : List.countP isFetchEv
      (fetchSource env TYPE ce.base (decide (ce.childElementCount = 0))).2 ≤ 1 :=
    fetch_count_fetchSource env TYPE ce.base _
  have hdone : List.countP isRunEv
      (dispatchDoneEvents (env.runOk (!ce.base.syncAttr)
        (fetchSource env TYPE ce.base (decide (ce.childElementCount = 0))).1)) = 0 :=
    run_count_done _
  have hdonef : List.countP isFetchEv
      (dispatchDoneEvents (env.runOk (!ce.base.syncAttr)
        (fetchSource env TYPE ce.base (decide (ce.childElementCount = 0))).1)) = 0 :=
    fetch_count_done _
  cases hce : ce.executed <;> cases r <;>
    simp [connectedCallback, hce, countP, List.countP_append, List.countP_cons,
      isRunEv, isFetchEv]
  all_goals omega

/-! ## C5 -/

lemma initLoop_true (l : List (String × Bool)) : initLoop true l = [] := by
  cases l <;> simp [initLoop]

/-- C5: evaluating the module a second time in the same process adopts the
first load's exported surface unchanged (the same worker constructors, hook
table, config map and whenDefined resolver — object identity), reports the
module as already live, and performs none of the per-flavor initialization
(no hook-table construction, no custom-element registration, no config
export). -/
theorem second_load_adopts_first_and_skips_init (f1 f2 : Exports)
    (flavors flavors' : List (String × Bool)) :
    (loadModule none f1 flavors).exports = f1 ∧
    (loadModule none f1 flavors).alreadyLive = false ∧
    (loadModule (loadModule none f1 flavors).slot f2 flavors').exports = f1 ∧
    (loadModule (loadModule none f1 flavors).slot f2 flavors').alreadyLive = true ∧
    (loadModule (loadModule none f1 flavors).slot f2 flavors').actions = [] := by
  simp [loadModule, stickyModule, initLoop_true]

/-! ## C8 -/

/-- C8: `PyScriptWorker(file, options)` first awaits the flavor's
plugin-bootstrap promise, then constructs the worker with the flavor's hook
table and the caller's options merged with `type` set to the flavor's
interpreter identifier (the other option fields are preserved), assigns the
synchronization object onto the fresh worker's `sync`, and returns the
worker's `ready` promise — which settles exactly once that worker reports
readiness. -/
theorem pyscript_worker_spawn_contract (TYPE interpreter file : String)
    (options : WorkerOptions) (k : Nat) (signals : List Nat) :
    ((PyScriptWorker TYPE interpreter file options k).2 =
      [SpawnEv.awaitPlugins TYPE,
        SpawnEv.constructWorker file (mergeOptions options interpreter) TYPE,
        SpawnEv.assignSync
          (PyScriptWorker TYPE interpreter file options k).1.workerKey]) ∧
    (mergeOptions options interpreter).config = options.config ∧
    (mergeOptions options interpreter).isAsyncOpt = options.isAsyncOpt ∧
    (mergeOptions options interpreter).typ = some interpreter ∧
    ((PyScriptWorker TYPE interpreter file options k).1.readyOf =
      (PyScriptWorker TYPE interpreter file options k).1.workerKey) ∧
    (readySettles (PyScriptWorker TYPE interpreter file options k).1 signals ↔
      (PyScriptWorker TYPE interpreter file options k).1.workerKey ∈ signals) := by
  simp [PyScriptWorker, mergeOptions, readySettles]

/-! ## Projection cons/append lemmas -/

lemma stderrMsgs_nil : stderrMsgs [] = [] := rfl

lemma stderrMsgs_cons (e : Ev) (tr : List Ev) :
    stderrMsgs (e :: tr) =
      (match e with | Ev.stderr m => [m] | _ => []) ++ stderrMsgs tr := by
  cases e <;> rfl

lemma regEvents_nil : regEvents [] = [] := rfl

lemma regEvents_cons (e : Ev) (tr : List Ev) :
    regEvents (e :: tr) =
      (match e with | Ev.registerJsModule fs => [fs] | _ => []) ++ regEvents tr := by
  cases e <;> rfl

lemma countP_nil (p : Ev → Bool) : countP p [] = 0 := rfl

lemma countP_cons (p : Ev → Bool) (e : Ev) (tr : List Ev) :
    countP p (e :: tr) = countP p tr + if p e then 1 else 0 :=
  List.countP_cons p e tr

lemma regEvents_inline (env : Env) (TYPE : String) (el : Element) (b : Bool) :
    regEvents (inlineSource env TYPE el b).2 = [] := by
  unfold inlineSource
  split <;> rfl

lemma regEvents_fetchSource (env : Env) (TYPE : String) (el : Element) (b : Bool) :
    regEvents (fetchSource env TYPE el b).2 = [] := by
  have hin := regEvents_inline env TYPE el b
  unfold fetchSource
  cases hsrc : el.srcAttr with
  | none => exact hin
  | some url =>
    cases hf : env.fetchResult url with
    | ok t => simp [hf, regEvents]
    | error e => simp [hf, regEvents_cons, hin]

lemma regEvents_done (ok : Bool) : regEvents (dispatchDoneEvents ok) = [] := by
  unfold dispatchDoneEvents
  split <;> rfl

lemma stderrMsgs_registerModule (st : MainState) :
    stderrMsgs (registerModule st).2 = [] := by
  rw [registerModule_snd]
  split <;> rfl

lemma run_count_registerModule (st : MainState) :
    countP isRunEv (registerModule st).2 = 0 := by
  rw [registerModule_snd]
  split <;> rfl

lemma regEvents_onReady (env : Env) (TYPE : String) (st : MainState) (el : Element) :
    regEvents (onReady env TYPE st el).2 = regEvents (registerModule st).2 := by
  unfold onReady
  cases hl : ledgerGet (registerModule st).1.errors el.key with
  | some m =>
    simp [hl, regEvents_append, regEvents_cons, regEvents_nil, regEvents_chain]
  | none =>
    by_cases hsc : isScript el = true <;>
      simp [hl, hsc, regEvents_append, regEvents_cons, regEvents_nil,
        regEvents_chain, regEvents_fetchSource, regEvents_done]

lemma assignIdIfMissing_flag (TYPE : String) (st : MainState) (k : Nat) :
    (assignIdIfMissing TYPE st k).alreadyRegistered = st.alreadyRegistered := by
  unfold assignIdIfMissing getID
  cases h : docId st.doc k with
  | none => simp [h]
  | some i =>
    simp only [h]
    split <;> simp

lemma resolveShow_flag (env : Env) (TYPE : String) (st : MainState) (el : Element) :
    (resolveShow env TYPE st el).2.alreadyRegistered = st.alreadyRegistered := by
  unfold resolveShow
  cases h : el.targetAttr with
  | none => simp [h, assignIdIfMissing_flag]
  | some t => simp [h, assignIdIfMissing_flag]

lemma onReady_registered (env : Env) (TYPE : String) (st : MainState) (el : Element) :
    (onReady env TYPE st el).1.alreadyRegistered = true := by
  unfold onReady
  cases hl : ledgerGet st.errors el.key with
  | some m => simp [registerModule_fst, hl]
  | none =>
    by_cases hsc : isScript el = true <;>
      simp [registerModule_fst, hl, hsc, resolveShow_flag]

/-! ## C10 -/

/-- C10: the `_pyscript` interpreter-side module (worker constructor,
filesystem helper, interpreter handle, import helper, target getter) is
registered at most once per flavor: after any `onReady` the
`alreadyRegistered` guard is set, a first `onReady` on an unregistered flavor
performs exactly one registration carrying those five fields, and every
`onReady` run from the resulting state performs none. -/
theorem interpreter_module_registered_once (env env' : Env) (TYPE TYPE' : String)
    (st : MainState) (el el' : Element) :
    ((onReady env TYPE st el).1.alreadyRegistered = true) ∧
    (regEvents (onReady env TYPE st el).2 =
      if st.alreadyRegistered then [] else [pyscriptModuleFields]) ∧
    (regEvents (onReady env' TYPE' (onReady env TYPE st el).1 el').2 = []) := by
  refine ⟨onReady_registered env TYPE st el, ?_, ?_⟩
  · rw [regEvents_onReady, registerModule_snd]
    split <;> rfl
  · rw [regEvents_onReady, registerModule_snd, onReady_registered]
    rfl

/-! ## C2 -/

/-- C2: when a unit reaches its ready checkpoint with an error pending in the
ledger, `onReady` consumes the ledger entry (it is gone afterwards), writes
exactly one message to the unit's `io.stderr` — prefixed with the
`CONFLICTING_CODE` error code and carrying the (deep when invalid-content,
else shallow) outerHTML of the element — and never invokes `run` or
`runAsync`. -/
theorem upstream_error_preempts_execution (env : Env) (TYPE : String)
    (st : MainState) (el : Element) (msg : String)
    (h : ledgerGet st.errors el.key = some msg) :
    ledgerGet ((onReady env TYPE st el).1).errors el.key = none ∧
    stderrMsgs (onReady env TYPE st el).2 =
      ["(" ++ CONFLICTING_CODE ++ ") " ++ msg ++ " for " ++
        (if msg = INVALID_CONTENT then el.outerHTMLDeep else el.outerHTMLShallow)] ∧
    countP isRunEv (onReady env TYPE st el).2 = 0 := by
  unfold onReady
  refine ⟨?_, ?_, ?_⟩
  · simp [registerModule_fst, h, ledgerGet_delete]
  · simp [registerModule_fst, h, stderrMsgs_append, stderrMsgs_cons, stderrMsgs_nil,
      stderrMsgs_chain, stderrMsgs_registerModule, conflictingMessage]
  · simp [registerModule_fst, h, countP_append, countP_cons, countP_nil,
      run_count_chain, run_count_registerModule, isRunEv]

/-! ## C6 -/

/-- C6: when a unit declares a `src` attribute and its fetch fails, the
failure is reported on the unit's `io.stderr` (exactly that one message), the
resolved source falls through to the element's inline content, and the fetch
is attempted exactly once (no retry). -/
theorem fetch_failure_reports_and_falls_through (env : Env) (TYPE : String)
    (el : Element) (asText : Bool) (url e : String)
    (h1 : el.srcAttr = some url) (h2 : env.fetchResult url = Except.error e) :
    (fetchSource env TYPE el asText).1 = (inlineSource env TYPE el asText).1 ∧
    stderrMsgs (fetchSource env TYPE el asText).2 = [e] ∧
    countP isFetchEv (fetchSource env TYPE el asText).2 = 1 := by
  have hin : stderrMsgs (inlineSource env TYPE el asText).2 = [] := by
    unfold inlineSource
    split <;> rfl
  have hinf : countP isFetchEv (inlineSource env TYPE el asText).2 = 0 :=
    fetch_count_inline env TYPE el asText
  unfold fetchSource
  refine ⟨?_, ?_, ?_⟩
  · simp [h1, h2]
  · simp [h1, h2, stderrMsgs_cons, stderrMsgs_nil, hin]
  · simp [h1, h2, countP_cons, countP_nil, hinf, isFetchEv]

/-- A concrete environment whose fetches always fail with `"404"`. -/
def envFail : Env where
  fetchResult := fun _ => Except.error "404"
  dedent := id
  unescape := id
  queryTarget := fun _ => 7
  runOk := fun _ _ => true
  onReadyCallbacks := []
  onWorkerCallbacks := []
  cbBody := fun _ => []

/-- A script element with a `src` attribute and inline fallback content. -/
def elSrc : Element where
  tagName := "SCRIPT"
  key := 0
  syncAttr := false
  srcAttr := some "missing.py"
  targetAttr := none
  textContent := "print(1)"
  innerHTML := "print(1)"
  outerHTMLShallow := "<script></script>"
  outerHTMLDeep := "<script>print(1)</script>"

theorem fetch_failure_reports_and_falls_through_witness :
    elSrc.srcAttr = some "missing.py" ∧
    envFail.fetchResult "missing.py" = Except.error "404" ∧
    ((fetchSource envFail "py" elSrc true).1 =
        (inlineSource envFail "py" elSrc true).1 ∧
      stderrMsgs (fetchSource envFail "py" elSrc true).2 = ["404"] ∧
      countP isFetchEv (fetchSource envFail "py" elSrc true).2 = 1) :=
  ⟨rfl, rfl,
    fetch_failure_reports_and_falls_through envFail "py" elSrc true "missing.py"
      "404" rfl rfl⟩

/-! ## C3 machinery -/

lemma dispatch_not_mem_registerModule (s : String) (st : MainState) :
    Ev.dispatchEvent s ∉ (registerModule st).2 := by
  rw [registerModule_snd]
  split <;> simp

lemma dispatch_not_mem_inline (s : String) (env : Env) (TYPE : String)
    (el : Element) (b : Bool) :
    Ev.dispatchEvent s ∉ (inlineSource env TYPE el b).2 := by
  unfold inlineSource
  split <;> simp

lemma dispatch_not_mem_fetchSource (s : String) (env : Env) (TYPE : String)
    (el : Element) (b : Bool) :
    Ev.dispatchEvent s ∉ (fetchSource env TYPE el b).2 := by
  have hin := dispatch_not_mem_inline s env TYPE el b
  unfold fetchSource
  cases hsrc : el.srcAttr with
  | none => exact hin
  | some url =>
    cases hf : env.fetchResult url with
    | ok t => simp [hf]
    | error e => simp [hf, hin]

lemma mem_done_iff (s : String) (ok : Bool) :
    Ev.dispatchEvent s ∈ dispatchDoneEvents ok ↔ (s = "done" ∧ ok = true) := by
  unfold dispatchDoneEvents
  cases ok <;> simp

/-! ## C3 (amended) -/

/-- C3 (amended): "done" is dispatched for a unit iff "ready" was dispatched,
no pending error was consumed at the ready checkpoint, and the unit's
`run`/`runAsync` invocation settled successfully — a throwing `run` or a
rejected `runAsync` promise leaves "done" undispatched even though "ready"
fired.  Stated for both the script path of `onReady` and the custom-element
`connectedCallback` path (where no ledger consumption exists). -/
theorem done_iff_ready_no_error_and_successful_run (env : Env) (TYPE : String)
    (st : MainState) (el : Element) (ce : CElement) (r : Bool) :
    ((Ev.dispatchEvent "done" ∈ (onReady env TYPE st el).2) ↔
      ((Ev.dispatchEvent "ready" ∈ (onReady env TYPE st el).2) ∧
        ledgerGet st.errors el.key = none ∧
        env.runOk (!el.syncAttr) (fetchSource env TYPE el true).1 = true)) ∧
    ((Ev.dispatchEvent "done" ∈ (connectedCallback env TYPE ce r).2) ↔
      ((Ev.dispatchEvent "ready" ∈ (connectedCallback env TYPE ce r).2) ∧
        env.runOk (!ce.base.syncAttr)
          (fetchSource env TYPE ce.base (decide (ce.childElementCount = 0))).1 =
          true)) := by
  constructor
  · unfold onReady
    cases hl : ledgerGet st.errors el.key with
    | some m =>
      simp [registerModule_fst, hl, dispatch_not_mem_registerModule,
        dispatch_not_mem_chain]
    | none =>
      by_cases hsc : isScript el = true <;>
        simp [registerModule_fst, hl, hsc, dispatch_not_mem_registerModule,
          dispatch_not_mem_chain, dispatch_not_mem_fetchSource, mem_done_iff]
  · unfold connectedCallback
    cases hce : ce.executed <;> cases r <;>
      simp [hce, dispatch_not_mem_fetchSource, mem_done_iff]

/-- A state whose error ledger holds a pending error for element key 1. -/
def stErr : MainState where
  errors := [(1, "boom")]
  alreadyRegistered := false
  idCounter := 0
  nextKey := 50
  doc := { headKeys := [], bodyKeys := [1], ids := [] }

/-- A plain inline script element with node key 1. -/
def elErr : Element where
  tagName := "SCRIPT"
  key := 1
  syncAttr := false
  srcAttr := none
  targetAttr := none
  textContent := "x = 1"
  innerHTML := "x = 1"
  outerHTMLShallow := "<script></script>"
  outerHTMLDeep := "<script>x = 1</script>"

theorem upstream_error_preempts_execution_witness :
    ledgerGet stErr.errors elErr.key = some "boom" ∧
    (ledgerGet ((onReady envFail "py" stErr elErr).1).errors elErr.key = none ∧
      stderrMsgs (onReady envFail "py" stErr elErr).2 =
        ["(" ++ CONFLICTING_CODE ++ ") " ++ "boom" ++ " for " ++
          (if "boom" = INVALID_CONTENT then elErr.outerHTMLDeep
            else elErr.outerHTMLShallow)] ∧
      countP isRunEv (onReady envFail "py" stErr elErr).2 = 0) :=
  ⟨by decide,
    upstream_error_preempts_execution envFail "py" stErr elErr "boom" (by decide)⟩

/-! ## C3 counterexample fixtures -/

/-- An environment whose `run`/`runAsync` never settles successfully (the
interpreter throws / the promise rejects). -/
def envNoRun : Env where
  fetchResult := fun _ => Except.ok "raise ValueError()"
  dedent := id
  unescape := id
  queryTarget := fun _ => 9
  runOk := fun _ _ => false
  onReadyCallbacks := []
  onWorkerCallbacks := []
  cbBody := fun _ => []

/-- A state with an empty error ledger. -/
def stEmpty : MainState where
  errors := []
  alreadyRegistered := false
  idCounter := 0
  nextKey := 100
  doc := { headKeys := [], bodyKeys := [0], ids := [] }

/-- A plain inline script element with node key 0 and no pending error. -/
def elPlain : Element where
  tagName := "SCRIPT"
  key := 0
  syncAttr := false
  srcAttr := none
  targetAttr := none
  textContent := "raise ValueError()"
  innerHTML := "raise ValueError()"
  outerHTMLShallow := "<script></script>"
  outerHTMLDeep := "<script>raise ValueError()</script>"

/-- C3 counterexample: with an empty ledger and a rejecting `runAsync`,
"ready" is dispatched and no pending error was consumed, yet "done" is never
dispatched — refuting the claimed biconditional as stated. -/
theorem done_iff_ready_no_error_counterexample :
    (Ev.dispatchEvent "ready" ∈ (onReady envNoRun "py" stEmpty elPlain).2) ∧
    ledgerGet stEmpty.errors elPlain.key = none ∧
    (Ev.dispatchEvent "done" ∉ (onReady envNoRun "py" stEmpty elPlain).2) := by
  refine ⟨by decide, by decide, by decide⟩

/-! ## C9 machinery -/

lemma onReady_script_snd (env : Env) (TYPE : String) (st : MainState)
    (el : Element) (hE : ledgerGet st.errors el.key = none)
    (hS : isScript el = true) :
    (onReady env TYPE st el).2 =
      (registerModule st).2 ++ invokeHookChain env.cbBody env.onReadyCallbacks ++
        [Ev.targetResolved
            (resolveShow env TYPE { st with alreadyRegistered := true } el).1,
          Ev.dispatchEvent "ready"] ++
        (fetchSource env TYPE el true).2 ++
        [Ev.run (!el.syncAttr) (fetchSource env TYPE el true).1] ++
        dispatchDoneEvents
          (env.runOk (!el.syncAttr) (fetchSource env TYPE el true).1) := by
  unfold onReady
  simp [registerModule_fst, hE, hS]

lemma fetchSource_head_fetch (env : Env) (TYPE : String) (el : Element)
    (b : Bool) (url : String) (h : el.srcAttr = some url) :
    ∃ rest, (fetchSource env TYPE el b).2 = Ev.fetch url :: rest := by
  unfold fetchSource
  cases hf : env.fetchResult url with
  | ok t => exact ⟨[], by simp [h, hf]⟩
  | error e =>
    exact ⟨Ev.stderr e :: (inlineSource env TYPE el b).2, by simp [h, hf]⟩

lemma connectedCallback_run_snd (env : Env) (TYPE : String) (ce : CElement)
    (hce : ce.executed = false) :
    (connectedCallback env TYPE ce true).2 =
      (fetchSource env TYPE ce.base (decide (ce.childElementCount = 0))).2 ++
        [Ev.dispatchEvent "ready",
          Ev.run (!ce.base.syncAttr)
            (fetchSource env TYPE ce.base (decide (ce.childElementCount = 0))).1] ++
        dispatchDoneEvents (env.runOk (!ce.base.syncAttr)
          (fetchSource env TYPE ce.base (decide (ce.childElementCount = 0))).1) := by
  unfold connectedCallback
  simp [hce]

/-! ## C9 (amended) -/

/-- C9 (amended): lifecycle checkpoints occur in state-machine order, but the
two unit kinds interleave source resolution differently: a script-type unit
dispatches "ready" first, then resolves its source, runs it and dispatches
"done" (`ready → fetch → run → done` appear in this order in its trace),
while a custom-element unit resolves its source before "ready"
(`fetch → ready → run → done`). -/
theorem lifecycle_checkpoint_order (env : Env) (TYPE : String) (st : MainState)
    (el : Element) (ce : CElement) (url u2 : String)
    (hS : isScript el = true) (hE : ledgerGet st.errors el.key = none)
    (hsrc : el.srcAttr = some url)
    (hce : ce.executed = false) (hsrc2 : ce.base.srcAttr = some u2) :
    List.Sublist
      (Ev.dispatchEvent "ready" :: Ev.fetch url ::
        Ev.run (!el.syncAttr) (fetchSource env TYPE el true).1 ::
        dispatchDoneEvents
          (env.runOk (!el.syncAttr) (fetchSource env TYPE el true).1))
      (onReady env TYPE st el).2 ∧
    List.Sublist
      (Ev.fetch u2 :: Ev.dispatchEvent "ready" ::
        Ev.run (!ce.base.syncAttr)
          (fetchSource env TYPE ce.base (decide (ce.childElementCount = 0))).1 ::
        dispatchDoneEvents (env.runOk (!ce.base.syncAttr)
          (fetchSource env TYPE ce.base (decide (ce.childElementCount = 0))).1))
      (connectedCallback env TYPE ce true).2 := by
  obtain ⟨rest, hr⟩ := fetchSource_head_fetch env TYPE el true url hsrc
  obtain ⟨rest2, hr2⟩ :=
    fetchSource_head_fetch env TYPE ce.base (decide (ce.childElementCount = 0))
      u2 hsrc2
  constructor
  · rw [onReady_script_snd env TYPE st el hE hS, hr]
    simp only [List.append_assoc, List.cons_append, List.nil_append]
    refine List.Sublist.trans ?_ (List.sublist_append_right _ _)
    refine List.Sublist.trans ?_ (List.sublist_append_right _ _)
    refine List.Sublist.cons _ ?_
    refine List.Sublist.cons₂ _ ?_
    exact List.Sublist.cons₂ _ (List.sublist_append_right _ _)
  · rw [connectedCallback_run_snd env TYPE ce hce, hr2]
    simp only [List.append_assoc, List.cons_append, List.nil_append]
    exact List.Sublist.cons₂ _ (List.sublist_append_right _ _)

/-- An environment that fetches and runs successfully. -/
def envOk : Env where
  fetchResult := fun _ => Except.ok "print(1)"
  dedent := id
  unescape := id
  queryTarget := fun _ => 3
  runOk := fun _ _ => true
  onReadyCallbacks := []
  onWorkerCallbacks := []
  cbBody := fun _ => []

/-- A script element declaring an external source reference. -/
def elRemote : Element where
  tagName := "SCRIPT"
  key := 0
  syncAttr := false
  srcAttr := some "u.py"
  targetAttr := none
  textContent := ""
  innerHTML := ""
  outerHTMLShallow := "<script></script>"
  outerHTMLDeep := "<script></script>"

/-- A not-yet-executed custom element declaring an external source. -/
def ceRemote : CElement where
  base :=
    { tagName := "MPY-SCRIPT"
      key := 5
      syncAttr := false
      srcAttr := some "w.py"
      targetAttr := none
      textContent := ""
      innerHTML := ""
      outerHTMLShallow := "<mpy-script></mpy-script>"
      outerHTMLDeep := "<mpy-script></mpy-script>" }
  srcCode := ""
  executed := false
  childElementCount := 0

theorem lifecycle_checkpoint_order_witness :
    isScript elRemote = true ∧
    ledgerGet stEmpty.errors elRemote.key = none ∧
    elRemote.srcAttr = some "u.py" ∧
    ceRemote.executed = false ∧
    ceRemote.base.srcAttr = some "w.py" ∧
    (List.Sublist
      (Ev.dispatchEvent "ready" :: Ev.fetch "u.py" ::
        Ev.run (!elRemote.syncAttr) (fetchSource envOk "py" elRemote true).1 ::
        dispatchDoneEvents
          (envOk.runOk (!elRemote.syncAttr)
            (fetchSource envOk "py" elRemote true).1))
      (onReady envOk "py" stEmpty elRemote).2 ∧
    List.Sublist
      (Ev.fetch "w.py" :: Ev.dispatchEvent "ready" ::
        Ev.run (!ceRemote.base.syncAttr)
          (fetchSource envOk "py" ceRemote.base
            (decide (ceRemote.childElementCount = 0))).1 ::
        dispatchDoneEvents (envOk.runOk (!ceRemote.base.syncAttr)
          (fetchSource envOk "py" ceRemote.base
            (decide (ceRemote.childElementCount = 0))).1))
      (connectedCallback envOk "py" ceRemote true).2) :=
  ⟨rfl, by decide, rfl, rfl, rfl,
    lifecycle_checkpoint_order envOk "py" stEmpty elRemote ceRemote "u.py" "w.py"
      rfl (by decide) rfl rfl rfl⟩

/-- C9 counterexample: a script unit with `src="u.py"` dispatches "ready"
strictly before the fetch that resolves its source, refuting "the unit's
source text is fully resolved before the ready event is dispatched". -/
theorem source_resolved_before_ready_counterexample :
    (Ev.fetch "u.py" ∈ (onReady envOk "py" stEmpty elRemote).2) ∧
    (Ev.dispatchEvent "ready" ∈ (onReady envOk "py" stEmpty elRemote).2) ∧
    idxOf (onReady envOk "py" stEmpty elRemote).2 (Ev.dispatchEvent "ready") <
      idxOf (onReady envOk "py" stEmpty elRemote).2 (Ev.fetch "u.py") := by
  refine ⟨by decide, by decide, by decide⟩

/-! ## C7 machinery -/

lemma assignIdIfMissing_doc_keys (TYPE : String) (st : MainState) (k : Nat) :
    (assignIdIfMissing TYPE st k).doc.headKeys = st.doc.headKeys ∧
    (assignIdIfMissing TYPE st k).doc.bodyKeys = st.doc.bodyKeys := by
  unfold assignIdIfMissing getID
  cases h : docId st.doc k with
  | none => simp [h, setId]
  | some i =>
    simp only [h]
    split <;> simp [setId]

lemma docId_setId (doc : Document) (k : Nat) (v : String) :
    docId (setId doc k v) k = some v := by
  simp [docId, setId]

lemma assignIdIfMissing_fresh (TYPE : String) (st : MainState) (k : Nat)
    (h : docId st.doc k = none) :
    docId (assignIdIfMissing TYPE st k).doc k =
      some (TYPE ++ "-" ++ toString st.idCounter) := by
  unfold assignIdIfMissing getID
  simp [h, docId_setId]

lemma onReady_script_fst (env : Env) (TYPE : String) (st : MainState)
    (el : Element) (hE : ledgerGet st.errors el.key = none)
    (hS : isScript el = true) :
    (onReady env TYPE st el).1 =
      (resolveShow env TYPE { st with alreadyRegistered := true } el).2 := by
  unfold onReady
  simp [registerModule_fst, hE, hS]

lemma resolveShow_target (env : Env) (TYPE : String) (st : MainState)
    (el : Element) (t : String) (h : el.targetAttr = some t) :
    (resolveShow env TYPE st el).1 = env.queryTarget t ∧
    (resolveShow env TYPE st el).2.doc.headKeys = st.doc.headKeys ∧
    (resolveShow env TYPE st el).2.doc.bodyKeys = st.doc.bodyKeys := by
  unfold resolveShow
  simp [h, assignIdIfMissing_doc_keys]

lemma resolveShow_none (env : Env) (TYPE : String) (st : MainState)
    (el : Element) (h : el.targetAttr = none) :
    (resolveShow env TYPE st el).1 = st.nextKey ∧
    (resolveShow env TYPE st el).2.doc.headKeys = st.doc.headKeys ∧
    (el.key ∈ st.doc.headKeys →
      (resolveShow env TYPE st el).2.doc.bodyKeys =
        st.doc.bodyKeys ++ [st.nextKey]) ∧
    (el.key ∉ st.doc.headKeys →
      (resolveShow env TYPE st el).2.doc.bodyKeys =
        insertAfter st.doc.bodyKeys el.key st.nextKey) ∧
    (docId st.doc st.nextKey = none →
      docId (resolveShow env TYPE st el).2.doc st.nextKey =
        some (TYPE ++ "-" ++ toString st.idCounter)) := by
  unfold resolveShow
  by_cases hm : el.key ∈ st.doc.headKeys
  · refine ⟨by simp [h], ?_, ?_, ?_, ?_⟩
    · simp [h, hm, assignIdIfMissing_doc_keys]
    · intro hm2
      simp [h, hm, assignIdIfMissing_doc_keys]
    · intro hm2
      exact absurd hm hm2
    · intro hfree
      have := assignIdIfMissing_fresh TYPE
        { errors := st.errors, alreadyRegistered := st.alreadyRegistered,
          idCounter := st.idCounter, nextKey := st.nextKey + 1,
          doc := { headKeys := st.doc.headKeys,
                   bodyKeys := st.doc.bodyKeys ++ [st.nextKey],
                   ids := st.doc.ids } }
        st.nextKey (by simpa [docId] using hfree)
      simpa [h, hm, docId] using this
  · refine ⟨by simp [h], ?_, ?_, ?_, ?_⟩
    · simp [h, hm, assignIdIfMissing_doc_keys]
    · intro hm2
      exact absurd hm2 hm
    · intro hm2
      simp [h, hm, assignIdIfMissing_doc_keys]
    · intro hfree
      have := assignIdIfMissing_fresh TYPE
        { errors := st.errors, alreadyRegistered := st.alreadyRegistered,
          idCounter := st.idCounter, nextKey := st.nextKey + 1,
          doc := { headKeys := st.doc.headKeys,
                   bodyKeys := insertAfter st.doc.bodyKeys el.key st.nextKey,
                   ids := st.doc.ids } }
        st.nextKey (by simpa [docId] using hfree)
      simpa [h, hm, docId] using this

/-! ## C7 -/

/-- C7: at a script unit's ready checkpoint, when the unit declares a
`target` attribute the display element is the document lookup of that target
(the document structure is left untouched); otherwise a fresh display element
is synthesized and placed — appended at the end of the body when the unit
lives in the document head, inserted immediately after the unit when it lives
in the body — and, having no id, it is assigned the fresh `TYPE-counter`
identifier. -/
theorem display_target_resolution (env : Env) (TYPE : String) (st : MainState)
    (el : Element) (hS : isScript el = true)
    (hE : ledgerGet st.errors el.key = none) :
    (∀ t, el.targetAttr = some t →
      Ev.targetResolved (env.queryTarget t) ∈ (onReady env TYPE st el).2 ∧
      (onReady env TYPE st el).1.doc.headKeys = st.doc.headKeys ∧
      (onReady env TYPE st el).1.doc.bodyKeys = st.doc.bodyKeys) ∧
    (el.targetAttr = none →
      Ev.targetResolved st.nextKey ∈ (onReady env TYPE st el).2 ∧
      (onReady env TYPE st el).1.doc.headKeys = st.doc.headKeys ∧
      (el.key ∈ st.doc.headKeys →
        (onReady env TYPE st el).1.doc.bodyKeys =
          st.doc.bodyKeys ++ [st.nextKey]) ∧
      (el.key ∉ st.doc.headKeys →
        (onReady env TYPE st el).1.doc.bodyKeys =
          insertAfter st.doc.bodyKeys el.key st.nextKey) ∧
      (docId st.doc st.nextKey = none →
        docId (onReady env TYPE st el).1.doc st.nextKey =
          some (TYPE ++ "-" ++ toString st.idCounter))) := by
  have hfst := onReady_script_fst env TYPE st el hE hS
  have hsnd := onReady_script_snd env TYPE st el hE hS
  constructor
  · intro t ht
    have h1 := resolveShow_target env TYPE
      { st with alreadyRegistered := true } el t ht
    refine ⟨?_, ?_, ?_⟩
    · rw [hsnd, h1.1]
      simp
    · rw [hfst]
      simpa using h1.2.1
    · rw [hfst]
      simpa using h1.2.2
  · intro ht
    have h1 := resolveShow_none env TYPE
      { st with alreadyRegistered := true } el ht
    refine ⟨?_, ?_, ?_, ?_, ?_⟩
    · rw [hsnd]
      have h2 : (resolveShow env TYPE { st with alreadyRegistered := true } el).1 =
          st.nextKey := by simpa using h1.1
      rw [h2]
      simp
    · rw [hfst]
      simpa using h1.2.1
    · intro hm
      rw [hfst]
      simpa using h1.2.2.1 (by simpa using hm)
    · intro hm
      rw [hfst]
      simpa using h1.2.2.2.1 (by simpa using hm)
    · intro hfree
      rw [hfst]
      simpa using h1.2.2.2.2 (by simpa using hfree)

/-- A state whose document holds element key 2 in the head. -/
def stHead : MainState where
  errors := []
  alreadyRegistered := false
  idCounter := 4
  nextKey := 10
  doc := { headKeys := [2], bodyKeys := [6], ids := [] }

/-- A head-declared script element with no explicit target. -/
def elHead : Element where
  tagName := "SCRIPT"
  key := 2
  syncAttr := true
  srcAttr := none
  targetAttr := none
  textContent := "print(2)"
  innerHTML := "print(2)"
  outerHTMLShallow := "<script></script>"
  outerHTMLDeep := "<script>print(2)</script>"

theorem display_target_resolution_witness :
    isScript elHead = true ∧
    ledgerGet stHead.errors elHead.key = none ∧
    ((∀ t, elHead.targetAttr = some t →
      Ev.targetResolved (envOk.queryTarget t) ∈ (onReady envOk "py" stHead elHead).2 ∧
      (onReady envOk "py" stHead elHead).1.doc.headKeys = stHead.doc.headKeys ∧
      (onReady envOk "py" stHead elHead).1.doc.bodyKeys = stHead.doc.bodyKeys) ∧
    (elHead.targetAttr = none →
      Ev.targetResolved stHead.nextKey ∈ (onReady envOk "py" stHead elHead).2 ∧
      (onReady envOk "py" stHead elHead).1.doc.headKeys = stHead.doc.headKeys ∧
      (elHead.key ∈ stHead.doc.headKeys →
        (onReady envOk "py" stHead elHead).1.doc.bodyKeys =
          stHead.doc.bodyKeys ++ [stHead.nextKey]) ∧
      (elHead.key ∉ stHead.doc.headKeys →
        (onReady envOk "py" stHead elHead).1.doc.bodyKeys =
          insertAfter stHead.doc.bodyKeys elHead.key stHead.nextKey) ∧
      (docId stHead.doc stHead.nextKey = none →
        docId (onReady envOk "py" stHead elHead).1.doc stHead.nextKey =
          some ("py" ++ "-" ++ toString stHead.idCounter)))) :=
  ⟨rfl, by decide, display_target_resolution envOk "py" stHead elHead rfl (by decide)⟩

end PyScriptCore
